import Mathlib

/-!
Verification of the family-dashboard weekly schedule and kanban board.

This file is a shallow embedding of the logic in src/app.py, translated
directly from the source:

- time slot generation (app.py line 1171),
- the week window computation (app.py lines 1103 to 1107),
- the per-cell event placement of the calendar grid (app.py lines 1191 to 1230),
- the person list for the filter control (app.py line 1162),
- the event filtering performed by the store query together with the
  per-cell person test (app.py lines 1121, 1122 and 1203),
- the kanban status move actions (app.py lines 258 to 297).

Dates are modelled as integer day numbers. Day 0 is taken to be a Monday, so
the Python weekday function (Monday = 0) becomes reduction modulo 7. The
source compares ISO date strings for equality, and distinct days have
distinct ISO strings, so integer equality is a faithful model.

Python string operations are modelled on character lists: the source
expression that takes the first five characters of the start time and splits
off the text before the first colon becomes a take followed by a takeWhile.

Definitions named with a spec prelude follow the specification text rather
than the source; the source itself never parses times, so a specification
level time parser is provided to state duration and overlap facts about
concrete inputs.
-/

/-- Models the Python format of an hour as two zero-padded decimal digits. -/
def pad2 (n : Nat) : String := if n < 10 then "0" ++ toString n else toString n

/-- Time slot labels, app.py line 1171: one label per hour from 6 to 22. -/
def time_slots : List String := (List.range 17).map (fun k => pad2 (k + 6) ++ ":00")

/-- Weekday of an integer day number, Monday = 0 (day 0 is a Monday). -/
def weekday (d : Int) : Int := d % 7

/-- Week start, app.py line 1106: today minus its weekday plus seven times the offset. -/
def computeWeekStart (today week_offset : Int) : Int :=
  today - weekday today + 7 * week_offset

/-- Week end, app.py line 1107: week start plus six days. -/
def computeWeekEnd (today week_offset : Int) : Int :=
  computeWeekStart today week_offset + 6

/-- A schedule event as stored in the schedule_events table. The person field
uses the empty string for both an empty and an absent value, matching how the
source treats falsy person values. -/
structure Event where
  id : String
  title : String
  person : String
  category : String
  event_date : Int
  start_time : String
  end_time : String
  description : String
deriving DecidableEq

/-- Category colors, app.py lines 79 to 85. -/
def COLORS : List (String × String) :=
  [("Haushalt", "#FF6B6B"), ("Arbeit", "#4ECDC4"), ("Schule", "#45B7D1"),
   ("Freizeit", "#FFA07A"), ("Gesundheit", "#98D8C8")]

/-- Color lookup with fallback, app.py line 1210. -/
def colorOf (category : String) : String :=
  ((COLORS.find? (fun p => p.1 == category)).map (fun p => p.2)).getD "#CCCCCC"

/-- The hour field of a start time, app.py line 1205: the text before the
first colon among the first five characters of the start time string. -/
def startHourField (s : String) : List Char :=
  (s.data.take 5).takeWhile (fun c => c != ':')

/-- The hour text of a slot label, app.py line 1205: its first two characters. -/
def slotHour (ts : String) : List Char := ts.data.take 2

/-- The per-cell membership test of the calendar grid, app.py lines 1200 to
1206: an event belongs to the cell of slot label ts and day index i when its
date is the day of column i, its person passes the person filter, and the
hour field of its start time equals the hour text of the slot. -/
def placedAt (filter_person : List String) (week_start : Int) (time_slot : String)
    (i : Nat) (e : Event) : Bool :=
  (e.event_date == week_start + (i : Int)) &&
  (filter_person.isEmpty || filter_person.contains e.person) &&
  (startHourField e.start_time == slotHour time_slot)

/-- The events of one grid cell, in input order, app.py lines 1200 to 1206. -/
def cellEvents (events : List Event) (filter_person : List String) (week_start : Int)
    (time_slot : String) (i : Nat) : List Event :=
  events.filter (placedAt filter_person week_start time_slot i)

/-- The content of one rendered event block, app.py lines 1214 to 1228:
category color, a time label made of the first five characters of start and
end time, the title and the person. -/
structure EventBlock where
  color : String
  timeLabel : String
  title : String
  person : String
deriving DecidableEq

/-- The first five characters of a string, modelling a Python slice. -/
def take5 (s : String) : String := String.mk (s.data.take 5)

/-- Renders one event block, app.py lines 1214 to 1228. -/
def renderBlock (e : Event) : EventBlock :=
  { color := colorOf e.category,
    timeLabel := take5 e.start_time ++ "-" ++ take5 e.end_time,
    title := e.title,
    person := e.person }

/-- The whole grid, app.py lines 1191 to 1230: for every slot label the slot
together with the block lists of its seven day cells. -/
def calendarGrid (events : List Event) (filter_person : List String)
    (week_start : Int) : List (String × List (List EventBlock)) :=
  time_slots.map (fun ts =>
    (ts, (List.range 7).map (fun i =>
      (cellEvents events filter_person week_start ts i).map renderBlock)))

/-- Whether an event appears in at least one cell of the grid. -/
def placedSomewhere (filter_person : List String) (week_start : Int) (e : Event) : Bool :=
  time_slots.any (fun ts => (List.range 7).any (fun i => placedAt filter_person week_start ts i e))

/-- All cells, as row and column index pairs, in which an event appears. -/
def occupiedCells (filter_person : List String) (week_start : Int) (e : Event) :
    List (Nat × Nat) :=
  ((List.range 17).map (fun r =>
    ((List.range 7).filter (fun i =>
      placedAt filter_person week_start (time_slots.getD r "") i e)).map (fun i => (r, i)))).flatten

/-- The position of an event inside the block stack of its cell: cell content
is emitted in input order and the blocks stack vertically inside the cell. -/
def stackIndex (events : List Event) (filter_person : List String) (week_start : Int)
    (time_slot : String) (i : Nat) (e : Event) : Nat :=
  (cellEvents events filter_person week_start time_slot i).indexOf e

/-- The person values offered by the filter control, app.py line 1162: the
distinct truthy person values of the events, with no trimming. -/
def distinctPersons (events : List Event) : List String :=
  ((events.filter (fun e => e.person != "")).map (fun e => e.person)).dedup

/-- The event filtering the page performs, combining the date range
conditions of the store query, app.py lines 1121 and 1122, with the person
test of the cell comprehension, app.py line 1203. Order is preserved. -/
def filterEvents (events : List Event) (wstart wend : Int) (allowed : List String) :
    List Event :=
  events.filter (fun e =>
    decide (wstart ≤ e.event_date) && decide (e.event_date ≤ wend) &&
    (allowed.isEmpty || allowed.contains e.person))

/-- The kanban status columns, app.py line 259. -/
def statuses : List String := ["To-Do", "In Progress", "Done"]

/-- The status written by the move-left button, app.py lines 285 to 287: the
list element before the current status. The button exists only for a task
whose status is not the first element. -/
def moveLeft (s : String) : String := statuses.getD (statuses.indexOf s - 1) ""

/-- The status written by the move-right button, app.py lines 294 to 296: the
list element after the current status. The button exists only for a task
whose status is not the last element. -/
def moveRight (s : String) : String := statuses.getD (statuses.indexOf s + 1) ""

/-- Numeric value of a decimal digit character. -/
def digitVal (c : Char) : Nat := c.toNat - 48

/-- Two decimal digit characters as a number below one hundred. -/
def twoDigits (a b : Char) : Option Nat :=
  if a.isDigit && b.isDigit then some (10 * digitVal a + digitVal b) else none

/-- Follows the specification text, section 4.1: parse a time of day of shape
HH:MM or HH:MM:SS and return its minutes since midnight, or none on malformed
input. The source contains no time parser; this definition only serves to
state duration and overlap facts about concrete inputs. -/
def specToMinutes (s : String) : Option Nat :=
  match s.data with
  | [h1, h2, ':', m1, m2] =>
      match twoDigits h1 h2, twoDigits m1 m2 with
      | some h, some m => if h < 24 && m < 60 then some (60 * h + m) else none
      | _, _ => none
  | [h1, h2, ':', m1, m2, ':', s1, s2] =>
      match twoDigits h1 h2, twoDigits m1 m2, twoDigits s1 s2 with
      | some h, some m, some sec =>
          if h < 24 && m < 60 && sec < 60 then some (60 * h + m) else none
      | _, _, _ => none
  | _ => none

/-- Follows the specification text, section 4.4: two events overlap when both
parse and their half-open minute intervals intersect. -/
def specOverlaps (a b : Event) : Bool :=
  match specToMinutes a.start_time, specToMinutes a.end_time,
        specToMinutes b.start_time, specToMinutes b.end_time with
  | some s1, some e1, some s2, some e2 => decide (s1 < e2) && decide (s2 < e1)
  | _, _, _, _ => false

/-- Builds a concrete event on a given day with given times. -/
def mkEvent (title person : String) (d : Int) (st et : String) : Event :=
  { id := title, title := title, person := person, category := "Freizeit",
    event_date := d, start_time := st, end_time := et, description := "" }

/-- A one hour event from 09:00, on the Monday of week start 0. -/
def evA : Event := mkEvent "A" "Anna" 0 "09:00:00" "10:00:00"

/-- Like evA but with doubled duration, ending 11:00. -/
def evB : Event := mkEvent "B" "Anna" 0 "09:00:00" "11:00:00"

/-- First event of the overlap scenario, 09:00 to 10:00. -/
def ev1 : Event := mkEvent "E1" "Anna" 0 "09:00:00" "10:00:00"

/-- Second event of the overlap scenario, 09:30 to 10:30. -/
def ev2 : Event := mkEvent "E2" "Ben" 0 "09:30:00" "10:30:00"

/-- Third event of the overlap scenario, 11:00 to 12:00. -/
def ev3 : Event := mkEvent "E3" "Cara" 0 "11:00:00" "12:00:00"

/-- The three events of the overlap scenario, in input order. -/
def evs3 : List Event := [ev1, ev2, ev3]

/-- An event from 09:00 to 10:30, overlapping ovB. -/
def ovA : Event := mkEvent "OA" "Anna" 0 "09:00:00" "10:30:00"

/-- An event from 10:00 to 11:00, overlapping ovA but starting in a later hour. -/
def ovB : Event := mkEvent "OB" "Ben" 0 "10:00:00" "11:00:00"

/-- An event starting before the display window, 05:30 to 06:30. -/
def ev0530 : Event := mkEvent "Early" "Anna" 0 "05:30:00" "06:30:00"

/-- An event whose end time lies before its start time. -/
def evNeg : Event := mkEvent "Neg" "Anna" 0 "09:00:00" "08:30:00"

/-- An event with a well formed start time and an unparseable end time. -/
def evBadEnd : Event := mkEvent "BadEnd" "Anna" 0 "09:00:00" "banane"

/-- A well formed event used alongside a malformed one. -/
def ev7good : Event := mkEvent "Good" "Anna" 0 "09:15:00" "09:45:00"

/-- An event with an unparseable start time. -/
def ev7bad : Event := mkEvent "Bad" "Anna" 0 "banane" "10:00:00"

/-- The four events of the distinct persons scenario. -/
def annaEvs : List Event :=
  [mkEvent "P1" "Anna" 0 "08:00:00" "09:00:00",
   mkEvent "P2" "" 0 "08:00:00" "09:00:00",
   mkEvent "P3" "Ben" 0 "08:00:00" "09:00:00",
   mkEvent "P4" "Anna" 0 "08:00:00" "09:00:00"]

/-- An event whose person value carries surrounding blanks. -/
def evUntrimmed : Event := mkEvent "T" " Anna " 0 "08:00:00" "09:00:00"

/-- An event whose person value is a single blank. -/
def evBlankPerson : Event := mkEvent "S" " " 0 "08:00:00" "09:00:00"

/-- C1: the claim states that block height is strictly proportional to event
duration. The grid of app.py computes no height at all: evA and evB share
date, person and start time, evB lasts 120 minutes where evA lasts 60, yet
both occupy exactly the same single cell of the grid, so no layout quantity
doubles with the duration. -/
theorem C1_counterexample :
    specToMinutes evA.start_time = some 540 ∧ specToMinutes evA.end_time = some 600 ∧
    specToMinutes evB.start_time = some 540 ∧ specToMinutes evB.end_time = some 660 ∧
    occupiedCells [] 0 evA = [(3, 0)] ∧ occupiedCells [] 0 evB = [(3, 0)] := by
  decide

/-- C1 amended: the grid layout computes no block height; an event placement
is determined by date, person and start hour alone and is invariant under any
change of the end time, hence of the duration. -/
theorem C1_main (e : Event) (t : String) (filter_person : List String)
    (week_start : Int) (time_slot : String) (i : Nat) :
    placedAt filter_person week_start time_slot i { e with end_time := t } =
      placedAt filter_person week_start time_slot i e := rfl

/-- C2: the claim states that any two overlapping events of a day column get
different lanes. The grid assigns no lanes: ovA and ovB overlap on the same
day, yet each sits alone at stack position 0 of its start hour cell, with no
horizontal differentiation anywhere in the layout. -/
theorem C2_counterexample :
    specOverlaps ovA ovB = true ∧ ovA.event_date = ovB.event_date ∧
    occupiedCells [] 0 ovA = [(3, 0)] ∧ occupiedCells [] 0 ovB = [(4, 0)] ∧
    stackIndex [ovA, ovB] [] 0 "09:00" 0 ovA = 0 ∧
    stackIndex [ovA, ovB] [] 0 "10:00" 0 ovB = 0 := by
  decide

/-- C2 amended: the layout has no lanes; events sharing a start hour are
stacked in input order inside one cell. For the scenario events 09:00 to
10:00, 09:30 to 10:30 and 11:00 to 12:00, the first two share the 09:00 cell
at stack positions 0 and 1 with cell size 2, and the third sits alone in the
11:00 cell at stack position 0 with cell size 1. -/
theorem C2_main :
    cellEvents evs3 [] 0 "09:00" 0 = [ev1, ev2] ∧
    cellEvents evs3 [] 0 "10:00" 0 = [] ∧
    cellEvents evs3 [] 0 "11:00" 0 = [ev3] ∧
    (cellEvents evs3 [] 0 "09:00" 0).length = 2 ∧
    (cellEvents evs3 [] 0 "11:00" 0).length = 1 ∧
    stackIndex evs3 [] 0 "09:00" 0 ev1 = 0 ∧
    stackIndex evs3 [] 0 "09:00" 0 ev2 = 1 ∧
    stackIndex evs3 [] 0 "11:00" 0 ev3 = 0 := by
  decide

/-- C3: the week window satisfies start equals today minus its weekday plus
seven times the offset, end equals start plus six; with offset zero the start
is the Monday on or before today, and raising the offset by one moves the
start by exactly seven days. -/
theorem C3_main (today off n : Int) :
    computeWeekStart today off = today - weekday today + 7 * off ∧
    computeWeekEnd today off = computeWeekStart today off + 6 ∧
    weekday (computeWeekStart today 0) = 0 ∧
    computeWeekStart today 0 ≤ today ∧
    today < computeWeekStart today 0 + 7 ∧
    computeWeekStart today (n + 1) = computeWeekStart today n + 7 := by
  refine ⟨rfl, rfl, ?_, ?_, ?_, ?_⟩ <;>
    simp only [computeWeekStart, computeWeekEnd, weekday] <;> omega

/-- C4: the claim states slots at 30 minute steps from 06:00 to 22:30. The
generated slots contain neither 06:30 nor 22:30 and count 17 labels, not the
34 a half-hour ruler would have. -/
theorem C4_counterexample :
    "06:30" ∉ time_slots ∧ "22:30" ∉ time_slots ∧ "06:00" ∈ time_slots ∧
    time_slots.length = 17 := by
  decide

/-- C4 amended: the time slots are hourly labels from 06:00 to 22:00
inclusive, one per hour. -/
theorem C4_main :
    time_slots = ["06:00", "07:00", "08:00", "09:00", "10:00", "11:00", "12:00",
      "13:00", "14:00", "15:00", "16:00", "17:00", "18:00", "19:00", "20:00",
      "21:00", "22:00"] := by
  decide

/-- C5: the claim states an event starting before the window start is clamped
to the boundary and never dropped. The event starting 05:30 on the Monday of
the displayed week appears in no cell of the grid: it is dropped entirely. -/
theorem C5_counterexample :
    ev0530.event_date = computeWeekStart 0 0 ∧
    placedSomewhere [] (computeWeekStart 0 0) ev0530 = false := by
  decide

/-- C5 amended: there is no clamping; an event appears in the grid only if
the hour field of its start time equals the hour text of one of the slot
labels 06:00 to 22:00, so events starting outside those hours are dropped. -/
theorem C5_main (filter_person : List String) (week_start : Int) (e : Event)
    (h : placedSomewhere filter_person week_start e = true) :
    startHourField e.start_time ∈ time_slots.map slotHour := by
  simp only [placedSomewhere, List.any_eq_true] at h
  obtain ⟨ts, hts, h2⟩ := h
  obtain ⟨i, _, hp⟩ := h2
  simp only [placedAt, Bool.and_eq_true] at hp
  have heq : startHourField e.start_time = slotHour ts := eq_of_beq hp.2
  rw [heq]
  exact List.mem_map_of_mem slotHour hts

/-- C5 witness: evA is placed somewhere, and its start hour field is indeed
among the slot hour texts. -/
theorem C5_witness :
    placedSomewhere [] 0 evA = true ∧
    startHourField evA.start_time ∈ time_slots.map slotHour :=
  ⟨by decide, C5_main [] 0 evA (by decide)⟩

/-- C6: the claim states a displayed duration clamped to at least 15 minutes.
The event evNeg ends 30 minutes before it starts and its rendered block shows
the raw inverted times unchanged; no duration quantity is computed, so
nothing is clamped. -/
theorem C6_counterexample :
    specToMinutes evNeg.start_time = some 540 ∧ specToMinutes evNeg.end_time = some 510 ∧
    (renderBlock evNeg).timeLabel = "09:00-08:30" := by
  decide

/-- C6 amended: an event whose end time lies before its start time still
appears as a block in the grid, in the cell of its start hour, and the layout
is total; but its duration is not clamped, the raw times are displayed. -/
theorem C6_main :
    cellEvents [evNeg] [] 0 "09:00" 0 = [evNeg] ∧
    placedSomewhere [] 0 evNeg = true ∧
    occupiedCells [] 0 evNeg = [(3, 0)] := by
  decide

/-- C7: the claim states an event with a malformed start or end time is
excluded from the grid. An event with an unparseable end time is not
excluded: placement never reads the end time, so evBadEnd is placed in the
09:00 cell despite its end time failing to parse. -/
theorem C7_counterexample :
    specToMinutes evBadEnd.end_time = none ∧
    placedSomewhere [] 0 evBadEnd = true ∧
    occupiedCells [] 0 evBadEnd = [(3, 0)] := by
  decide

/-- C7 amended: the layout is total, and an event whose start time hour field
matches no slot hour is excluded from every cell while the rest of the layout
is produced exactly as without it; a malformed end time never excludes an
event. -/
theorem C7_main (evs1 evs2 : List Event) (bad : Event) (filter_person : List String)
    (week_start : Int) (ts : String) (i : Nat)
    (hbad : startHourField bad.start_time ∉ time_slots.map slotHour)
    (hts : ts ∈ time_slots) :
    cellEvents (evs1 ++ bad :: evs2) filter_person week_start ts i =
      cellEvents evs1 filter_person week_start ts i ++
      cellEvents evs2 filter_person week_start ts i := by
  have hfalse : placedAt filter_person week_start ts i bad = false := by
    have h3 : (startHourField bad.start_time == slotHour ts) = false := by
      apply beq_eq_false_iff_ne.mpr
      intro heq
      apply hbad
      rw [heq]
      exact List.mem_map_of_mem slotHour hts
    simp [placedAt, h3]
  simp [cellEvents, List.filter_append, hfalse]

/-- C7 witness: the event with start time banane is dropped from the 09:00
cell while ev7good still appears, the layout otherwise unchanged. -/
theorem C7_witness :
    startHourField ev7bad.start_time ∉ time_slots.map slotHour ∧
    "09:00" ∈ time_slots ∧
    cellEvents ([ev7good] ++ ev7bad :: []) [] 0 "09:00" 0 =
      cellEvents [ev7good] [] 0 "09:00" 0 ++ cellEvents [] [] 0 "09:00" 0 :=
  ⟨by decide, by decide,
    C7_main [ev7good] [] ev7bad [] 0 "09:00" 0 (by decide) (by decide)⟩

/-- C8: the event filtering of the page, date range plus person allow list,
is idempotent: filtering an already filtered list again with the same window
and persons returns it unchanged. -/
theorem C8_main (events : List Event) (wstart wend : Int) (allowed : List String) :
    filterEvents (filterEvents events wstart wend allowed) wstart wend allowed =
      filterEvents events wstart wend allowed := by
  unfold filterEvents
  rw [List.filter_filter]
  congr 1
  funext e
  exact Bool.and_self _

/-- C9: the claim states the returned person values are trimmed. The source
never trims: a person value with surrounding blanks is returned verbatim, and
a person value consisting of a single blank, empty after trimming, is
returned as well instead of being excluded. -/
theorem C9_counterexample :
    distinctPersons [evUntrimmed] = [" Anna "] ∧
    distinctPersons [evBlankPerson] = [" "] := by
  decide

/-- C9 amended: distinctPersons returns the distinct untrimmed non-empty
person values, never contains the empty string, and on the scenario events
with persons Anna, empty, Ben, Anna it returns exactly the set containing
Anna and Ben. -/
theorem C9_main :
    (∀ events : List Event, (distinctPersons events).contains "" = false) ∧
    (∀ p : String, p ∈ distinctPersons annaEvs ↔ (p = "Anna" ∨ p = "Ben")) := by
  constructor
  · intro events
    by_contra hc
    rw [Bool.not_eq_false] at hc
    have hc2 : List.elem "" ((events.filter
        (fun e => e.person != "")).map (fun e => e.person)).dedup = true := hc
    have hm := List.mem_of_elem_eq_true hc2
    rw [List.mem_dedup, List.mem_map] at hm
    obtain ⟨e, he, hpe⟩ := hm
    rw [List.mem_filter] at he
    have hpred := he.2
    rw [hpe] at hpred
    simp at hpred
  · intro p
    have hval : distinctPersons annaEvs = ["Ben", "Anna"] := by decide
    rw [hval]
    simp only [List.mem_cons, List.mem_singleton, List.not_mem_nil, or_false]
    exact or_comm

/-- C10: for a task whose status is one of To-Do, In Progress and Done, the
move-left action, offered only off the first column, writes the previous
element of the status list with its index in bounds, and the move-right
action, offered only off the last column, writes the next element with its
index in bounds; so both actions keep the status inside the three element
enumeration. -/
theorem C10_main (s : String) (hs : s ∈ statuses) :
    (s ≠ "To-Do" → (moveLeft s ∈ statuses ∧ statuses.indexOf s - 1 < statuses.length)) ∧
    (s ≠ "Done" → (moveRight s ∈ statuses ∧ statuses.indexOf s + 1 < statuses.length)) := by
  simp only [statuses, List.mem_cons, List.mem_singleton, List.not_mem_nil, or_false] at hs
  rcases hs with h | h | h <;> subst h <;>
    refine ⟨fun hne => ?_, fun hne => ?_⟩ <;>
      first
      | decide
      | exact absurd rfl hne

/-- C10 witness: from In Progress both moves stay inside the enumeration with
indices in bounds. -/
theorem C10_witness :
    (moveLeft "In Progress" ∈ statuses ∧
      statuses.indexOf "In Progress" - 1 < statuses.length) ∧
    (moveRight "In Progress" ∈ statuses ∧
      statuses.indexOf "In Progress" + 1 < statuses.length) :=
  ⟨(C10_main "In Progress" (by decide)).1 (by decide),
   (C10_main "In Progress" (by decide)).2 (by decide)⟩
